import Mathlib

/-!
Shallow embedding of the PS5 joypad uinput backend
(`src/sunshine/third-party/inputtino/src/uinput/joypad_ps.cpp`).

The external libevdev/uinput interface is modelled as pure data: a call to
`libevdev_uinput_write_event(controller, type, code, value)` becomes an
`Event` appended to the list of emitted events, and the opaque device handle
becomes an `Option Nat` (`none` models `joy.get() == nullptr`).
-/

namespace Inputtino

/-- Event types used by the backend (`EV_KEY`, `EV_ABS`, `EV_SYN`, `EV_FF`
from `linux/input.h`). -/
inductive EvType
  | EV_KEY
  | EV_ABS
  | EV_SYN
  | EV_FF
deriving DecidableEq

/-- Event codes written or enabled by `joypad_ps.cpp`
(from `linux/input-event-codes.h`); modelled as distinct constructors. -/
inductive EvCode
  | ABS_HAT0X
  | ABS_HAT0Y
  | ABS_X
  | ABS_Y
  | ABS_RX
  | ABS_RY
  | ABS_Z
  | ABS_RZ
  | BTN_SOUTH
  | BTN_EAST
  | BTN_WEST
  | BTN_NORTH
  | BTN_THUMBL
  | BTN_THUMBR
  | BTN_TL
  | BTN_TR
  | BTN_TL2
  | BTN_TR2
  | BTN_SELECT
  | BTN_MODE
  | BTN_START
  | SYN_REPORT
  | FF_RUMBLE
  | FF_CONSTANT
  | FF_PERIODIC
  | FF_SINE
  | FF_RAMP
  | FF_GAIN
deriving DecidableEq

/-- One call to `libevdev_uinput_write_event(handle, type, code, value)`. -/
structure Event where
  type : EvType
  code : EvCode
  value : Int
deriving DecidableEq

/-- The synchronization event `write_event(EV_SYN, SYN_REPORT, 0)`. -/
def syn_event : Event := ⟨EvType.EV_SYN, EvCode.SYN_REPORT, 0⟩

namespace Btn

/-- Modelled from the spec: the `ButtonMask` flag constants (the controller
button enumeration lives in `inputtino/input.hpp`, which is not part of the
given sources).  The spec describes a set of named button flags represented
as an integer bitmask: directional pad up/down/left/right, face buttons
A/B/X/Y, shoulder buttons, stick-click buttons, start/back/guide; each named
flag is a distinct single bit. -/
def DPAD_UP : Nat := 0x0001

/-- Directional pad down flag bit. -/
def DPAD_DOWN : Nat := 0x0002

/-- Directional pad left flag bit. -/
def DPAD_LEFT : Nat := 0x0004

/-- Directional pad right flag bit. -/
def DPAD_RIGHT : Nat := 0x0008

/-- Start button flag bit. -/
def START : Nat := 0x0010

/-- Back/select button flag bit. -/
def BACK : Nat := 0x0020

/-- Left stick click flag bit. -/
def LEFT_STICK : Nat := 0x0040

/-- Right stick click flag bit. -/
def RIGHT_STICK : Nat := 0x0080

/-- Left shoulder button flag bit. -/
def LEFT_BUTTON : Nat := 0x0100

/-- Right shoulder button flag bit. -/
def RIGHT_BUTTON : Nat := 0x0200

/-- Home/guide button flag bit. -/
def HOME : Nat := 0x0400

/-- Face button A flag bit. -/
def A : Nat := 0x1000

/-- Face button B flag bit. -/
def B : Nat := 0x2000

/-- Face button X flag bit. -/
def X : Nat := 0x4000

/-- Face button Y flag bit. -/
def Y : Nat := 0x8000

end Btn

/-- Thread bookkeeping for the feedback-listener thread (`std::thread`):
whether it has been started and whether it is joinable. -/
structure ThreadState where
  started : Bool
  joinable : Bool
deriving DecidableEq

/-- Modelled from the spec (the `PS5JoypadState` struct lives in
`inputtino/protected_ps5_types.hpp`, which is not part of the given sources):
the session state owns the device handle (`joy`, `none` when absent), the
last-applied button mask (`currently_pressed_btns`, initially empty per the
spec's "snapshots an empty previous state"), the listener stop flag and the
listener thread.  The rumble callback is irrelevant to the claims and
omitted. -/
structure PS5JoypadState where
  joy : Option Nat
  currently_pressed_btns : Nat
  stop_listening_events : Bool
  events_thread : ThreadState
deriving DecidableEq

set_option linter.unusedVariables false in
/-- The `PS5Joypad(uint16_t vendor_id, std::array<unsigned char, 6> mac_address)`
constructor: its body is empty apart from allocating a fresh
`PS5JoypadState`; both arguments are ignored. -/
def PS5Joypad.init (vendor_id : Nat) (mac_address : List Nat) : PS5JoypadState :=
  ⟨none, 0, false, ⟨false, false⟩⟩

/-- One `if (FLAG & bf_changed) write_event(EV_KEY, code, bf_new & FLAG ? 1 : 0)`
line of `set_pressed_buttons`. -/
def key_event_seg (flag : Nat) (code : EvCode) (bf_changed bf_new : Nat) : List Event :=
  if flag &&& bf_changed ≠ 0 then
    [⟨EvType.EV_KEY, code, if flag &&& bf_new ≠ 0 then 1 else 0⟩]
  else []

/-- One directional-pad block of `set_pressed_buttons`:
`if ((NEG | POS) & bf_changed) write_event(EV_ABS, code, bf_new & NEG ? -1 : (bf_new & POS ? 1 : 0))`. -/
def dpad_axis_seg (flag_neg flag_pos : Nat) (code : EvCode) (bf_changed bf_new : Nat) :
    List Event :=
  if (flag_neg ||| flag_pos) &&& bf_changed ≠ 0 then
    [⟨EvType.EV_ABS, code,
      if bf_new &&& flag_neg ≠ 0 then -1 else if bf_new &&& flag_pos ≠ 0 then 1 else 0⟩]
  else []

/-- `PS5Joypad::set_pressed_buttons(unsigned int newly_pressed)` (lines
110-157): diff the new mask against the stored one, emit the edge-triggered
button/d-pad events followed by `SYN_REPORT` when the device handle is live,
and store the new mask unconditionally. -/
def set_pressed_buttons (st : PS5JoypadState) (newly_pressed : Nat) :
    PS5JoypadState × List Event :=
  let bf_changed := newly_pressed ^^^ st.currently_pressed_btns
  let bf_new := newly_pressed
  let events :=
    match st.joy with
    | some _ =>
        (if bf_changed ≠ 0 then
          dpad_axis_seg Btn.DPAD_UP Btn.DPAD_DOWN EvCode.ABS_HAT0Y bf_changed bf_new ++
          dpad_axis_seg Btn.DPAD_LEFT Btn.DPAD_RIGHT EvCode.ABS_HAT0X bf_changed bf_new ++
          key_event_seg Btn.START EvCode.BTN_START bf_changed bf_new ++
          key_event_seg Btn.BACK EvCode.BTN_SELECT bf_changed bf_new ++
          key_event_seg Btn.LEFT_STICK EvCode.BTN_THUMBL bf_changed bf_new ++
          key_event_seg Btn.RIGHT_STICK EvCode.BTN_THUMBR bf_changed bf_new ++
          key_event_seg Btn.LEFT_BUTTON EvCode.BTN_TL bf_changed bf_new ++
          key_event_seg Btn.RIGHT_BUTTON EvCode.BTN_TR bf_changed bf_new ++
          key_event_seg Btn.HOME EvCode.BTN_MODE bf_changed bf_new ++
          key_event_seg Btn.A EvCode.BTN_SOUTH bf_changed bf_new ++
          key_event_seg Btn.B EvCode.BTN_EAST bf_changed bf_new ++
          key_event_seg Btn.X EvCode.BTN_WEST bf_changed bf_new ++
          key_event_seg Btn.Y EvCode.BTN_NORTH bf_changed bf_new
        else []) ++ [syn_event]
    | none => []
  ({ st with currently_pressed_btns := bf_new }, events)

/-- The stick selector `Joypad::STICK_POSITION` (`LS`, `RS`). -/
inductive STICK_POSITION
  | LS
  | RS
deriving DecidableEq

/-- `PS5Joypad::set_stick(stick_type, x, y)` (lines 159-171): when the
handle is live, write the horizontal axis with `x` and the vertical axis
with `-y` for the chosen stick, then `SYN_REPORT`; session state is not
touched. -/
def set_stick (st : PS5JoypadState) (stick_type : STICK_POSITION) (x y : Int) :
    PS5JoypadState × List Event :=
  let events :=
    match st.joy with
    | some _ =>
        (if stick_type = STICK_POSITION.LS then
          [⟨EvType.EV_ABS, EvCode.ABS_X, x⟩, ⟨EvType.EV_ABS, EvCode.ABS_Y, -y⟩]
        else
          [⟨EvType.EV_ABS, EvCode.ABS_RX, x⟩, ⟨EvType.EV_ABS, EvCode.ABS_RY, -y⟩]) ++
        [syn_event]
    | none => []
  (st, events)

/-- `PS5Joypad::set_triggers(int16_t left, int16_t right)` (lines 173-189):
when the handle is live, write `ABS_Z` with `left` and `ABS_RZ` with `right`
(the source's `left > 0` / `right > 0` conditionals have identical branches,
kept here verbatim), then `SYN_REPORT`; session state is not touched. -/
def set_triggers (st : PS5JoypadState) (left right : Int) :
    PS5JoypadState × List Event :=
  let events :=
    match st.joy with
    | some _ =>
        (if left > 0 then
          [⟨EvType.EV_ABS, EvCode.ABS_Z, left⟩]
        else
          [⟨EvType.EV_ABS, EvCode.ABS_Z, left⟩]) ++
        (if right > 0 then
          [⟨EvType.EV_ABS, EvCode.ABS_RZ, right⟩]
        else
          [⟨EvType.EV_ABS, EvCode.ABS_RZ, right⟩]) ++
        [syn_event]
    | none => []
  (st, events)

/-- The branch-free form of `set_triggers`: unconditionally emit `left` on
`ABS_Z` and `right` on `ABS_RZ`, then `SYN_REPORT`, when the handle is
live. -/
def set_triggers_branchfree (st : PS5JoypadState) (left right : Int) :
    PS5JoypadState × List Event :=
  let events :=
    match st.joy with
    | some _ =>
        [⟨EvType.EV_ABS, EvCode.ABS_Z, left⟩,
         ⟨EvType.EV_ABS, EvCode.ABS_RZ, right⟩,
         syn_event]
    | none => []
  (st, events)

/-- The immutable creation parameters (`DeviceDefinition`): the fields the
PS5 backend reads are the name and the vendor/product/version identifiers. -/
structure DeviceDefinition where
  name : String
  vendor_id : Nat
  product_id : Nat
  version : Nat
deriving DecidableEq

/-- `struct input_absinfo` from `linux/input.h`, in its declared field
order: `value`, `minimum`, `maximum`, `fuzz`, `flat`, `resolution`. -/
structure input_absinfo where
  value : Int
  minimum : Int
  maximum : Int
  fuzz : Int
  flat : Int
  resolution : Int
deriving DecidableEq

/-- The `BUS_USB` bus-type constant from `linux/input.h`. -/
def BUS_USB : Nat := 0x03

/-- The capability descriptor a `libevdev` device accumulates before
registration: identity fields plus the enabled key codes, absolute axes
(with calibration) and force-feedback effect codes, in enable order. -/
structure LibevdevDevice where
  name : String
  vendor_id : Nat
  product_id : Nat
  version : Nat
  bustype : Nat
  key_codes : List EvCode
  abs_axes : List (EvCode × input_absinfo)
  ff_codes : List EvCode
deriving DecidableEq

/-- The descriptor built by `create_ps_controller` (lines 24-71) before the
`libevdev_uinput_create_from_device` call: identity from the
`DeviceDefinition`, thirteen key codes, d-pad hat axes with
`input_absinfo{0, -1, 1, 0, 0, 0}`, stick axes with
`input_absinfo{0, -32768, 32767, 16, 128, 0}`, trigger axes with
`input_absinfo{0, 0, 255, 0, 0, 0}`, and six force-feedback effect
codes. -/
def ps_capability_descriptor (device : DeviceDefinition) : LibevdevDevice :=
  let dpad : input_absinfo := ⟨0, -1, 1, 0, 0, 0⟩
  let stick : input_absinfo := ⟨0, -32768, 32767, 16, 128, 0⟩
  let trigger : input_absinfo := ⟨0, 0, 255, 0, 0, 0⟩
  { name := device.name
    vendor_id := device.vendor_id
    product_id := device.product_id
    version := device.version
    bustype := BUS_USB
    key_codes :=
      [EvCode.BTN_WEST, EvCode.BTN_EAST, EvCode.BTN_NORTH, EvCode.BTN_SOUTH,
       EvCode.BTN_THUMBL, EvCode.BTN_THUMBR, EvCode.BTN_TR, EvCode.BTN_TL,
       EvCode.BTN_TR2, EvCode.BTN_TL2, EvCode.BTN_SELECT, EvCode.BTN_MODE,
       EvCode.BTN_START]
    abs_axes :=
      [(EvCode.ABS_HAT0Y, dpad), (EvCode.ABS_HAT0X, dpad),
       (EvCode.ABS_X, stick), (EvCode.ABS_RX, stick),
       (EvCode.ABS_Y, stick), (EvCode.ABS_RY, stick),
       (EvCode.ABS_Z, trigger), (EvCode.ABS_RZ, trigger)]
    ff_codes :=
      [EvCode.FF_RUMBLE, EvCode.FF_CONSTANT, EvCode.FF_PERIODIC,
       EvCode.FF_SINE, EvCode.FF_RAMP, EvCode.FF_GAIN] }

/-- Look up the calibration declared for an absolute axis code in a
descriptor. -/
def absInfoOf (d : LibevdevDevice) (c : EvCode) : Option input_absinfo :=
  (d.abs_axes.filter (fun p => p.1 == c)).head?.map Prod.snd

/-- `create_ps_controller(device)` (lines 23-80): build the capability
descriptor and hand it to the external registration operation
(`libevdev_uinput_create_from_device`, modelled as the function argument
`uinput_create` returning either an error message or a device handle). -/
def create_ps_controller (uinput_create : LibevdevDevice → Except String Nat)
    (device : DeviceDefinition) : Except String Nat :=
  match uinput_create (ps_capability_descriptor device) with
  | Except.error e => Except.error e
  | Except.ok uidev => Except.ok uidev

/-- `PS5Joypad::create(device)` (lines 94-108): on registration failure
return the error; otherwise construct a `PS5Joypad` (constructor arguments
`0` and defaulted), store the handle, start the event-listener thread and
detach it. -/
def create (uinput_create : LibevdevDevice → Except String Nat)
    (device : DeviceDefinition) : Except String PS5JoypadState :=
  match create_ps_controller uinput_create device with
  | Except.error e => Except.error e
  | Except.ok handle =>
      let joypad := PS5Joypad.init 0 []
      let joypad := { joypad with joy := some handle }
      let joypad := { joypad with events_thread := ⟨true, true⟩ }
      let joypad := { joypad with
        events_thread := { joypad.events_thread with joinable := false } }
      Except.ok joypad

/-- `PS5Joypad::~PS5Joypad()` (lines 85-92): set the stop flag, then join
the listener thread only when the handle is live and the thread is
joinable.  The returned `Bool` records whether the destructor joined,
i.e. blocked until the listener thread had exited. -/
def PS5Joypad.destroy (st : PS5JoypadState) : PS5JoypadState × Bool :=
  let st := { st with stop_listening_events := true }
  if st.joy.isSome ∧ st.events_thread.joinable then (st, true) else (st, false)

/-- Number of emitted events carrying a given event code. -/
def countCode (c : EvCode) (l : List Event) : Nat :=
  (l.filter (fun e => e.code == c)).length

theorem countCode_nil (c : EvCode) : countCode c [] = 0 := rfl

theorem countCode_append (c : EvCode) (l1 l2 : List Event) :
    countCode c (l1 ++ l2) = countCode c l1 + countCode c l2 := by
  simp [countCode, List.filter_append]

theorem countCode_singleton (c : EvCode) (e : Event) :
    countCode c [e] = if e.code = c then 1 else 0 := by
  by_cases h : e.code = c <;> simp [countCode, h]

theorem countCode_key_event_seg (c : EvCode) (flag : Nat) (code : EvCode) (ch nw : Nat) :
    countCode c (key_event_seg flag code ch nw) =
      if code = c ∧ flag &&& ch ≠ 0 then 1 else 0 := by
  unfold key_event_seg
  by_cases h : flag &&& ch ≠ 0
  · rw [if_pos h, countCode_singleton]
    by_cases hc : code = c <;> simp [hc, h]
  · rw [if_neg h, countCode_nil]
    simp [h]

theorem countCode_dpad_axis_seg (c : EvCode) (fn fp : Nat) (code : EvCode) (ch nw : Nat) :
    countCode c (dpad_axis_seg fn fp code ch nw) =
      if code = c ∧ (fn ||| fp) &&& ch ≠ 0 then 1 else 0 := by
  unfold dpad_axis_seg
  by_cases h : (fn ||| fp) &&& ch ≠ 0
  · rw [if_pos h, countCode_singleton]
    by_cases hc : code = c <;> simp [hc, h]
  · rw [if_neg h, countCode_nil]
    simp [h]

/-- Normal form of the events emitted by `set_pressed_buttons` on a live
handle: the outer `if (bf_changed)` guard is redundant because every inner
guard tests a sub-mask of `bf_changed`. -/
theorem pressed_events_normal_form (handle prev : Nat) (stop : Bool)
    (th : ThreadState) (nw : Nat) :
    (set_pressed_buttons ⟨some handle, prev, stop, th⟩ nw).2 =
      dpad_axis_seg Btn.DPAD_UP Btn.DPAD_DOWN EvCode.ABS_HAT0Y (nw ^^^ prev) nw ++
      dpad_axis_seg Btn.DPAD_LEFT Btn.DPAD_RIGHT EvCode.ABS_HAT0X (nw ^^^ prev) nw ++
      key_event_seg Btn.START EvCode.BTN_START (nw ^^^ prev) nw ++
      key_event_seg Btn.BACK EvCode.BTN_SELECT (nw ^^^ prev) nw ++
      key_event_seg Btn.LEFT_STICK EvCode.BTN_THUMBL (nw ^^^ prev) nw ++
      key_event_seg Btn.RIGHT_STICK EvCode.BTN_THUMBR (nw ^^^ prev) nw ++
      key_event_seg Btn.LEFT_BUTTON EvCode.BTN_TL (nw ^^^ prev) nw ++
      key_event_seg Btn.RIGHT_BUTTON EvCode.BTN_TR (nw ^^^ prev) nw ++
      key_event_seg Btn.HOME EvCode.BTN_MODE (nw ^^^ prev) nw ++
      key_event_seg Btn.A EvCode.BTN_SOUTH (nw ^^^ prev) nw ++
      key_event_seg Btn.B EvCode.BTN_EAST (nw ^^^ prev) nw ++
      key_event_seg Btn.X EvCode.BTN_WEST (nw ^^^ prev) nw ++
      key_event_seg Btn.Y EvCode.BTN_NORTH (nw ^^^ prev) nw ++
      [syn_event] := by
  by_cases hch : nw ^^^ prev ≠ 0
  · simp [set_pressed_buttons, hch]
  · push_neg at hch
    simp [set_pressed_buttons, hch, key_event_seg, dpad_axis_seg, Nat.and_zero]

theorem filter_key_event_seg_ne (c : EvCode) (flag : Nat) (code : EvCode) (ch nw : Nat)
    (h : code ≠ c) :
    (key_event_seg flag code ch nw).filter (fun e => e.code == c) = [] := by
  unfold key_event_seg
  split <;> simp [h]

theorem filter_dpad_axis_seg_self (fn fp : Nat) (code : EvCode) (ch nw : Nat) :
    (dpad_axis_seg fn fp code ch nw).filter (fun e => e.code == code) =
      dpad_axis_seg fn fp code ch nw := by
  unfold dpad_axis_seg
  split <;> simp

theorem filter_dpad_axis_seg_ne (c : EvCode) (fn fp : Nat) (code : EvCode) (ch nw : Nat)
    (h : code ≠ c) :
    (dpad_axis_seg fn fp code ch nw).filter (fun e => e.code == c) = [] := by
  unfold dpad_axis_seg
  split <;> simp [h]

/-- C1: on a session with a live device handle, for every stored previous
mask and every new mask, each button code's event is emitted exactly when
its flag bit lies in the XOR of the two masks, each directional-pad axis
event exactly when one of its pair's bits lies in the XOR, no event is
emitted for an unchanged bit, and the button/axis events are followed by
exactly one `SYN_REPORT` synchronization event.  Quantifying over the
stored previous mask covers every sequence of mask updates, since
`set_pressed_buttons` stores the new mask as the next previous mask. -/
theorem set_pressed_buttons_edge_triggered (handle prev : Nat) (stop : Bool)
    (th : ThreadState) (nw : Nat) :
    countCode EvCode.ABS_HAT0Y (set_pressed_buttons ⟨some handle, prev, stop, th⟩ nw).2 =
      (if (Btn.DPAD_UP ||| Btn.DPAD_DOWN) &&& (nw ^^^ prev) ≠ 0 then 1 else 0) ∧
    countCode EvCode.ABS_HAT0X (set_pressed_buttons ⟨some handle, prev, stop, th⟩ nw).2 =
      (if (Btn.DPAD_LEFT ||| Btn.DPAD_RIGHT) &&& (nw ^^^ prev) ≠ 0 then 1 else 0) ∧
    countCode EvCode.BTN_START (set_pressed_buttons ⟨some handle, prev, stop, th⟩ nw).2 =
      (if Btn.START &&& (nw ^^^ prev) ≠ 0 then 1 else 0) ∧
    countCode EvCode.BTN_SELECT (set_pressed_buttons ⟨some handle, prev, stop, th⟩ nw).2 =
      (if Btn.BACK &&& (nw ^^^ prev) ≠ 0 then 1 else 0) ∧
    countCode EvCode.BTN_THUMBL (set_pressed_buttons ⟨some handle, prev, stop, th⟩ nw).2 =
      (if Btn.LEFT_STICK &&& (nw ^^^ prev) ≠ 0 then 1 else 0) ∧
    countCode EvCode.BTN_THUMBR (set_pressed_buttons ⟨some handle, prev, stop, th⟩ nw).2 =
      (if Btn.RIGHT_STICK &&& (nw ^^^ prev) ≠ 0 then 1 else 0) ∧
    countCode EvCode.BTN_TL (set_pressed_buttons ⟨some handle, prev, stop, th⟩ nw).2 =
      (if Btn.LEFT_BUTTON &&& (nw ^^^ prev) ≠ 0 then 1 else 0) ∧
    countCode EvCode.BTN_TR (set_pressed_buttons ⟨some handle, prev, stop, th⟩ nw).2 =
      (if Btn.RIGHT_BUTTON &&& (nw ^^^ prev) ≠ 0 then 1 else 0) ∧
    countCode EvCode.BTN_MODE (set_pressed_buttons ⟨some handle, prev, stop, th⟩ nw).2 =
      (if Btn.HOME &&& (nw ^^^ prev) ≠ 0 then 1 else 0) ∧
    countCode EvCode.BTN_SOUTH (set_pressed_buttons ⟨some handle, prev, stop, th⟩ nw).2 =
      (if Btn.A &&& (nw ^^^ prev) ≠ 0 then 1 else 0) ∧
    countCode EvCode.BTN_EAST (set_pressed_buttons ⟨some handle, prev, stop, th⟩ nw).2 =
      (if Btn.B &&& (nw ^^^ prev) ≠ 0 then 1 else 0) ∧
    countCode EvCode.BTN_WEST (set_pressed_buttons ⟨some handle, prev, stop, th⟩ nw).2 =
      (if Btn.X &&& (nw ^^^ prev) ≠ 0 then 1 else 0) ∧
    countCode EvCode.BTN_NORTH (set_pressed_buttons ⟨some handle, prev, stop, th⟩ nw).2 =
      (if Btn.Y &&& (nw ^^^ prev) ≠ 0 then 1 else 0) ∧
    ∃ l, (set_pressed_buttons ⟨some handle, prev, stop, th⟩ nw).2 = l ++ [syn_event] ∧
      countCode EvCode.SYN_REPORT l = 0 := by
  rw [pressed_events_normal_form]
  refine ⟨?_, ?_, ?_, ?_, ?_, ?_, ?_, ?_, ?_, ?_, ?_, ?_, ?_, _, rfl, ?_⟩ <;>
    simp [countCode_append, countCode_dpad_axis_seg, countCode_key_event_seg,
      countCode_singleton, syn_event]

/-- C2: on a session with a live device handle, for every stored previous
mask and every new mask, the vertical d-pad axis event is emitted exactly
when the up or down flag changed, carrying `-1` when the up flag is set in
the new mask, else `1` when the down flag is set, else `0`; the horizontal
axis behaves the same for left/right.  In particular both opposing flags
absent yields neutral `0`, simultaneous opposing presses resolve to the
negative value, and a repeated identical mask (XOR zero) emits no axis
event at all. -/
theorem set_pressed_buttons_dpad_axes (handle prev : Nat) (stop : Bool)
    (th : ThreadState) (nw : Nat) :
    ((set_pressed_buttons ⟨some handle, prev, stop, th⟩ nw).2.filter
        (fun e => e.code == EvCode.ABS_HAT0Y) =
      if (Btn.DPAD_UP ||| Btn.DPAD_DOWN) &&& (nw ^^^ prev) ≠ 0 then
        [⟨EvType.EV_ABS, EvCode.ABS_HAT0Y,
          if nw &&& Btn.DPAD_UP ≠ 0 then -1 else if nw &&& Btn.DPAD_DOWN ≠ 0 then 1 else 0⟩]
      else []) ∧
    ((set_pressed_buttons ⟨some handle, prev, stop, th⟩ nw).2.filter
        (fun e => e.code == EvCode.ABS_HAT0X) =
      if (Btn.DPAD_LEFT ||| Btn.DPAD_RIGHT) &&& (nw ^^^ prev) ≠ 0 then
        [⟨EvType.EV_ABS, EvCode.ABS_HAT0X,
          if nw &&& Btn.DPAD_LEFT ≠ 0 then -1 else if nw &&& Btn.DPAD_RIGHT ≠ 0 then 1 else 0⟩]
      else []) := by
  rw [pressed_events_normal_form]
  constructor <;>
  · simp only [List.filter_append, filter_key_event_seg_ne, filter_dpad_axis_seg_self,
      filter_dpad_axis_seg_ne, List.append_nil, List.nil_append, List.append_assoc,
      ne_eq, reduceCtorEq, not_false_eq_true]
    · simp [syn_event, dpad_axis_seg]

set_option linter.unusedVariables false in
/-- C3: on a session with a live device handle, for every signed 16-bit
pair `(x, y)`, `set_stick` emits the horizontal axis value `x` unchanged
and the vertical axis value as the negation of `y`, followed by one
synchronization event, for both stick identifiers, without touching the
session state. -/
theorem set_stick_sign_inversion (handle prev : Nat) (stop : Bool) (th : ThreadState)
    (x y : Int) (hx : -32768 ≤ x ∧ x ≤ 32767) (hy : -32768 ≤ y ∧ y ≤ 32767) :
    set_stick ⟨some handle, prev, stop, th⟩ STICK_POSITION.LS x y =
      (⟨some handle, prev, stop, th⟩,
       [⟨EvType.EV_ABS, EvCode.ABS_X, x⟩, ⟨EvType.EV_ABS, EvCode.ABS_Y, -y⟩, syn_event]) ∧
    set_stick ⟨some handle, prev, stop, th⟩ STICK_POSITION.RS x y =
      (⟨some handle, prev, stop, th⟩,
       [⟨EvType.EV_ABS, EvCode.ABS_RX, x⟩, ⟨EvType.EV_ABS, EvCode.ABS_RY, -y⟩, syn_event]) :=
  ⟨rfl, rfl⟩

/-- Witness for C3 at the spec's example input `(1000, 2000)`. -/
theorem set_stick_sign_inversion_witness :
    ((-32768 : Int) ≤ 1000 ∧ (1000 : Int) ≤ 32767) ∧
    ((-32768 : Int) ≤ 2000 ∧ (2000 : Int) ≤ 32767) ∧
    (set_stick ⟨some 0, 0, false, ⟨true, false⟩⟩ STICK_POSITION.LS 1000 2000 =
      (⟨some 0, 0, false, ⟨true, false⟩⟩,
       [⟨EvType.EV_ABS, EvCode.ABS_X, 1000⟩, ⟨EvType.EV_ABS, EvCode.ABS_Y, -2000⟩, syn_event]) ∧
     set_stick ⟨some 0, 0, false, ⟨true, false⟩⟩ STICK_POSITION.RS 1000 2000 =
      (⟨some 0, 0, false, ⟨true, false⟩⟩,
       [⟨EvType.EV_ABS, EvCode.ABS_RX, 1000⟩, ⟨EvType.EV_ABS, EvCode.ABS_RY, -2000⟩, syn_event])) :=
  ⟨⟨by decide, by decide⟩, ⟨by decide, by decide⟩,
   set_stick_sign_inversion 0 0 false ⟨true, false⟩ 1000 2000
     ⟨by decide, by decide⟩ ⟨by decide, by decide⟩⟩

set_option linter.unusedVariables false in
/-- C4: on a session with a live device handle, for every pressure pair in
`[0, 255]`, `set_triggers` emits the left and right trigger axis values
unchanged (no rescaling), followed by one synchronization event; in
particular `set_triggers 0 0` emits exactly 0 on both trigger axes. -/
theorem set_triggers_passthrough (handle prev : Nat) (stop : Bool) (th : ThreadState)
    (left right : Int) (hl : 0 ≤ left ∧ left ≤ 255) (hr : 0 ≤ right ∧ right ≤ 255) :
    set_triggers ⟨some handle, prev, stop, th⟩ left right =
      (⟨some handle, prev, stop, th⟩,
       [⟨EvType.EV_ABS, EvCode.ABS_Z, left⟩, ⟨EvType.EV_ABS, EvCode.ABS_RZ, right⟩,
        syn_event]) := by
  simp [set_triggers]

/-- Witness for C4 at the spec's example input `(0, 0)`: both trigger axes
return to exactly 0. -/
theorem set_triggers_passthrough_witness :
    ((0 : Int) ≤ 0 ∧ (0 : Int) ≤ 255) ∧
    set_triggers ⟨some 0, 0, false, ⟨true, false⟩⟩ 0 0 =
      (⟨some 0, 0, false, ⟨true, false⟩⟩,
       [⟨EvType.EV_ABS, EvCode.ABS_Z, 0⟩, ⟨EvType.EV_ABS, EvCode.ABS_RZ, 0⟩,
        syn_event]) :=
  ⟨⟨by decide, by decide⟩,
   set_triggers_passthrough 0 0 false ⟨true, false⟩ 0 0
     ⟨by decide, by decide⟩ ⟨by decide, by decide⟩⟩

set_option linter.unusedVariables false in
/-- C9: for every signed 16-bit input pair, `set_triggers` is extensionally
equal to the branch-free function that unconditionally emits `left` on the
left trigger axis and `right` on the right trigger axis (the source's
`left > 0` and `right > 0` conditionals have identical branches); in
particular negative inputs are emitted unchanged, not clamped to
`[0, 255]`. -/
theorem set_triggers_branch_equiv (st : PS5JoypadState) (left right : Int)
    (hl : -32768 ≤ left ∧ left ≤ 32767) (hr : -32768 ≤ right ∧ right ≤ 32767) :
    set_triggers st left right = set_triggers_branchfree st left right := by
  cases hj : st.joy <;> simp [set_triggers, set_triggers_branchfree, hj]

/-- Witness for C9 at a negative left pressure `(-5, 20)`: the branch-free
form (and hence the emitted value, `-5`, unclamped) is reached. -/
theorem set_triggers_branch_equiv_witness :
    ((-32768 : Int) ≤ -5 ∧ (-5 : Int) ≤ 32767) ∧
    set_triggers ⟨some 0, 0, false, ⟨true, false⟩⟩ (-5) 20 =
      set_triggers_branchfree ⟨some 0, 0, false, ⟨true, false⟩⟩ (-5) 20 :=
  ⟨⟨by decide, by decide⟩,
   set_triggers_branch_equiv ⟨some 0, 0, false, ⟨true, false⟩⟩ (-5) 20
     ⟨by decide, by decide⟩ ⟨by decide, by decide⟩⟩

/-- C6: when the device handle is absent, `set_stick` and `set_triggers`
emit nothing and leave the session state unchanged, while
`set_pressed_buttons` emits nothing but still stores the new mask as the
previous mask unconditionally; no call faults. -/
theorem handle_absent_commands_noop (prev : Nat) (stop : Bool) (th : ThreadState)
    (stick : STICK_POSITION) (x y left right : Int) (nw : Nat) :
    set_stick ⟨none, prev, stop, th⟩ stick x y = (⟨none, prev, stop, th⟩, []) ∧
    set_triggers ⟨none, prev, stop, th⟩ left right = (⟨none, prev, stop, th⟩, []) ∧
    set_pressed_buttons ⟨none, prev, stop, th⟩ nw = (⟨none, nw, stop, th⟩, []) :=
  ⟨rfl, rfl, rfl⟩

/-- C5: `create` returns an error exactly when the external device
registration fails (propagating the registration error and constructing no
session); on success it returns a session owning the obtained handle, with
the listener thread started and the stored previous button mask zero. -/
theorem create_registers_and_starts_listener
    (uinput_create : LibevdevDevice → Except String Nat) (device : DeviceDefinition) :
    (∀ msg, create_ps_controller uinput_create device = Except.error msg →
        create uinput_create device = Except.error msg) ∧
    (∀ handle, create_ps_controller uinput_create device = Except.ok handle →
        create uinput_create device =
          Except.ok ⟨some handle, 0, false, ⟨true, false⟩⟩) := by
  constructor
  · intro msg h
    unfold create
    rw [h]
  · intro handle h
    unfold create
    rw [h]
    rfl

/-- Witness for C5: a registration stub that accepts yields the live
session, and one that refuses yields the same error and no session. -/
theorem create_registers_and_starts_listener_witness :
    create_ps_controller (fun _ => Except.ok 7) ⟨"DualSense", 0x054c, 0x0ce6, 0x8111⟩ =
      Except.ok 7 ∧
    create (fun _ => Except.ok 7) ⟨"DualSense", 0x054c, 0x0ce6, 0x8111⟩ =
      Except.ok ⟨some 7, 0, false, ⟨true, false⟩⟩ ∧
    create (fun _ => Except.error "EPERM") ⟨"DualSense", 0x054c, 0x0ce6, 0x8111⟩ =
      Except.error "EPERM" :=
  ⟨rfl,
   (create_registers_and_starts_listener (fun _ => Except.ok 7)
     ⟨"DualSense", 0x054c, 0x0ce6, 0x8111⟩).2 7 rfl,
   (create_registers_and_starts_listener (fun _ => Except.error "EPERM")
     ⟨"DualSense", 0x054c, 0x0ce6, 0x8111⟩).1 "EPERM" rfl⟩

/-- C8 counterexample: for the session produced by a successful `create`,
destruction does not block until the listener has exited: `create` detaches
the listener thread, so the destructor's `joinable()` guard fails and the
join is skipped (the destructor's join flag is `false`), refuting the claim
that destruction always blocks on listener exit before handle release. -/
theorem destroy_after_create_does_not_join :
    create (fun _ => Except.ok 0) ⟨"DualSense", 0x054c, 0x0ce6, 0x8111⟩ =
      Except.ok ⟨some 0, 0, false, ⟨true, false⟩⟩ ∧
    (PS5Joypad.destroy ⟨some 0, 0, false, ⟨true, false⟩⟩).2 = false :=
  ⟨rfl, rfl⟩

/-- C8 (amended): session destruction always sets the stop flag, and then
blocks until the listener has exited (joins) exactly when the device handle
is live and the listener thread is joinable; since `create` detaches the
listener thread, a session produced by a successful `create` is destroyed
without blocking on listener exit. -/
theorem destroy_sets_flag_and_joins_iff (st joypad : PS5JoypadState)
    (uinput_create : LibevdevDevice → Except String Nat) (device : DeviceDefinition)
    (hc : create uinput_create device = Except.ok joypad) :
    (PS5Joypad.destroy st).1.stop_listening_events = true ∧
    ((PS5Joypad.destroy st).2 = true ↔
      st.joy.isSome = true ∧ st.events_thread.joinable = true) ∧
    (PS5Joypad.destroy joypad).2 = false := by
  refine ⟨?_, ?_, ?_⟩
  · by_cases h : st.joy.isSome = true ∧ st.events_thread.joinable = true <;>
      simp [PS5Joypad.destroy, h]
  · by_cases h : st.joy.isSome = true ∧ st.events_thread.joinable = true <;>
      simp [PS5Joypad.destroy, h]
  · unfold create at hc
    revert hc
    cases hcp : create_ps_controller uinput_create device with
    | error e => intro hc; cases hc
    | ok handle =>
        intro hc
        cases hc
        rfl

/-- Witness for C8 (amended) at a joinable session state and a concrete
successful `create`. -/
theorem destroy_sets_flag_and_joins_iff_witness :
    create (fun _ => Except.ok 5) ⟨"DualSense", 0x054c, 0x0ce6, 0x8111⟩ =
      Except.ok ⟨some 5, 0, false, ⟨true, false⟩⟩ ∧
    ((PS5Joypad.destroy ⟨some 3, 9, false, ⟨true, true⟩⟩).1.stop_listening_events = true ∧
     ((PS5Joypad.destroy ⟨some 3, 9, false, ⟨true, true⟩⟩).2 = true ↔
       (some 3 : Option Nat).isSome = true ∧ (⟨true, true⟩ : ThreadState).joinable = true) ∧
     (PS5Joypad.destroy ⟨some 5, 0, false, ⟨true, false⟩⟩).2 = false) :=
  ⟨rfl,
   destroy_sets_flag_and_joins_iff ⟨some 3, 9, false, ⟨true, true⟩⟩
     ⟨some 5, 0, false, ⟨true, false⟩⟩ (fun _ => Except.ok 5)
     ⟨"DualSense", 0x054c, 0x0ce6, 0x8111⟩ rfl⟩

/-- C7 counterexample: at a concrete `DeviceDefinition`, the stick axes of
the constructed capability descriptor do not carry flat 16 and fuzz 128:
the initializer `{0, -32768, 32767, 16, 128, 0}` sets `fuzz = 16` and
`flat = 128` in the `input_absinfo` field order of `linux/input.h`. -/
theorem ps_descriptor_stick_flat_is_not_16 :
    ¬ (∃ i, absInfoOf (ps_capability_descriptor ⟨"DualSense", 0x054c, 0x0ce6, 0x8111⟩)
        EvCode.ABS_X = some i ∧ i.flat = 16 ∧ i.fuzz = 128) := by
  rintro ⟨i, hi, hflat, -⟩
  rw [show absInfoOf (ps_capability_descriptor ⟨"DualSense", 0x054c, 0x0ce6, 0x8111⟩)
        EvCode.ABS_X = some ⟨0, -32768, 32767, 16, 128, 0⟩ from rfl] at hi
  cases hi
  exact absurd hflat (by decide)

/-- C7 (amended): capability-descriptor construction is a pure function of
the `DeviceDefinition` and, for every input, declares all four stick axes
calibrated with minimum -32768, maximum 32767, fuzz 16 and flat (deadzone)
128, and both trigger axes calibrated with minimum 0 and maximum 255. -/
theorem ps_descriptor_calibration (device : DeviceDefinition) :
    absInfoOf (ps_capability_descriptor device) EvCode.ABS_X =
      some ⟨0, -32768, 32767, 16, 128, 0⟩ ∧
    absInfoOf (ps_capability_descriptor device) EvCode.ABS_RX =
      some ⟨0, -32768, 32767, 16, 128, 0⟩ ∧
    absInfoOf (ps_capability_descriptor device) EvCode.ABS_Y =
      some ⟨0, -32768, 32767, 16, 128, 0⟩ ∧
    absInfoOf (ps_capability_descriptor device) EvCode.ABS_RY =
      some ⟨0, -32768, 32767, 16, 128, 0⟩ ∧
    absInfoOf (ps_capability_descriptor device) EvCode.ABS_Z =
      some ⟨0, 0, 255, 0, 0, 0⟩ ∧
    absInfoOf (ps_capability_descriptor device) EvCode.ABS_RZ =
      some ⟨0, 0, 255, 0, 0, 0⟩ :=
  ⟨rfl, rfl, rfl, rfl, rfl, rfl⟩

/-- C10: the `PS5Joypad` constructor ignores both its `vendor_id` and
`mac_address` arguments — any two runs with different argument pairs
produce identical fresh session states — so the registered device's
identity and all subsequent behaviour depend only on the
`DeviceDefinition` passed to `create` (which invokes the constructor with
fixed arguments and registers using only the definition). -/
theorem ctor_identity_noninterference (v1 v2 : Nat) (m1 m2 : List Nat) :
    PS5Joypad.init v1 m1 = PS5Joypad.init v2 m2 := rfl

end Inputtino
